import Mathlib

/-!
Shallow embedding of the embedding-model / vector-store compatibility core of
the image-context-vectorization repository
(`image_context_extractor/database/vector_db.py`,
`image_context_extractor/database/compatibility_checker.py`,
`image_context_extractor/core/extractor.py`).

Conventions:
* Python `None`-able values become `Option`.
* Python truthiness on strings and ints (`if stored_model_name and ...`,
  `if stored_dimension and ...`, `(not stored_dimension) or ...`) is made
  explicit through `pyTruthyStr` / `pyTruthyNat`: `None`, `""` and `0` are
  falsy.
* The single named ChromaDB collection of a store is modelled as
  `Option Collection` (`none` = the collection does not exist yet).
* Whether `client.get_collection` succeeds in reading the collection's
  metadata is environment nondeterminism, modelled by the Boolean field
  `metadataReadable`.
* The embedding vector stored with a record is abstracted by the ghost field
  `producedBy`: the identity (name, dimension) of the model whose embedding
  function computed it.  Nominal (non-I/O-failure) semantics are modelled:
  `collection.modify` succeeds.
-/

namespace ImageContextVectorization

/-- Python truthiness of an optional string: `None` and `""` are falsy. -/
def pyTruthyStr : Option String → Bool
  | none => false
  | some s => s != ""

/-- Python truthiness of an optional int: `None` and `0` are falsy. -/
def pyTruthyNat : Option Nat → Bool
  | none => false
  | some n => n != 0

/-- Python `f"{x}"` rendering of an optional int (`None` prints as "None"). -/
def pyShowOptNat : Option Nat → String
  | none => "None"
  | some n => toString n

/-- Identity of an embedding model: `model_name` together with the vector
dimension the model produces (`get_dimension()` of the embedding function).
The `model_device` field is informational only and not part of any
compatibility logic, so it is omitted. -/
structure ModelIdentity where
  name : String
  dimension : Nat
deriving DecidableEq

/-- Collection-level metadata (`collection.metadata`), as written by
`VectorDatabase._store_model_metadata`: the `model_name` and
`model_dimension` keys, each possibly absent. -/
structure StoredMetadata where
  model_name : Option String
  model_dimension : Option Nat
deriving DecidableEq

/-- The per-record metadata dict built by `VectorDatabase.store_image_data`. -/
structure RecordMetadata where
  image_path : String
  caption : String
  filename : String
  objects : String
  size : String
  fmt : String
deriving DecidableEq

/-- One stored record: id, document text, metadata, and (as the ghost field
`producedBy`) the identity of the embedding model that produced its vector. -/
structure StoredRecord where
  id : String
  document : String
  metadata : RecordMetadata
  producedBy : ModelIdentity
deriving DecidableEq

/-- The persistent collection: collection-level metadata, the records, and
whether `client.get_collection` succeeds in reading the metadata
(environment nondeterminism; `false` models the `except` branch of
`check_compatibility` lines 82-98). -/
structure Collection where
  meta : StoredMetadata
  records : List StoredRecord
  metadataReadable : Bool
deriving DecidableEq

/-- Verdict reasons of `DatabaseCompatibilityChecker.check_compatibility`
(the `reason` key of the returned dict). -/
inductive Reason where
  | no_existing_collection
  | no_model_config
  | unreadable_metadata
  | model_name_mismatch
  | dimension_mismatch
  | compatible
  | check_error
deriving DecidableEq

/-- The claim-relevant part of the dict returned by
`check_compatibility`: the `compatible` Boolean, the `reason`, and the
human-readable `message`. -/
structure CheckResult where
  compatible : Bool
  reason : Reason
  message : String
deriving DecidableEq

/-- `DatabaseCompatibilityChecker.check_compatibility`, for a configured
provider (`self.embedding_function` present, so the `no_model_config` branch
is unreachable).  The candidate dimension is always present because the
checker forces `get_dimension()` (lines 103-104).  Mirrors the source
branch for branch:
1. collection absent → compatible, `no_existing_collection`;
2. `get_collection` failure → incompatible, `unreadable_metadata`;
3. stored name truthy and different → incompatible, `model_name_mismatch`;
4. `(not stored_dimension) or (not current_dimension) or` differing →
   incompatible, `dimension_mismatch`;
5. otherwise compatible. -/
def check_compatibility (store : Option Collection) (cand : ModelIdentity) :
    CheckResult :=
  match store with
  | none =>
      ⟨true, .no_existing_collection, "New collection will be created"⟩
  | some col =>
      if ¬ col.metadataReadable then
        ⟨false, .unreadable_metadata,
          "Existing collection has no readable metadata. Database clearing required."⟩
      else
        let storedName := col.meta.model_name
        let storedDim := col.meta.model_dimension
        if pyTruthyStr storedName && (storedName.getD "" != cand.name) then
          ⟨false, .model_name_mismatch,
            "Model changed: " ++ storedName.getD "" ++ " → " ++ cand.name⟩
        else if (!pyTruthyNat storedDim) || (cand.dimension == 0)
            || (storedDim != some cand.dimension) then
          ⟨false, .dimension_mismatch,
            "Embedding dimension changed: " ++ pyShowOptNat storedDim
              ++ " → " ++ toString cand.dimension⟩
        else
          ⟨true, .compatible, "Models are compatible"⟩

/-- `VectorDatabase.check_model_compatibility` (vector_db.py lines 313-402),
projected onto its `compatible` Boolean (its returned dict has no `reason`
key).  Unlike the standalone checker it does not force dimension loading:
`current_model_info.get('dimension')` is present only when the model is
already loaded (`modelLoaded`), and its dimension test is
`if stored_dimension and current_dimension and stored_dimension != current_dimension`,
so a missing or zero dimension on either side skips the dimension check. -/
def check_model_compatibility (store : Option Collection)
    (cand : ModelIdentity) (modelLoaded : Bool) : Bool :=
  match store with
  | none => true
  | some col =>
      if ¬ col.metadataReadable then false
      else
        let storedName := col.meta.model_name
        let storedDim := col.meta.model_dimension
        let currentDim : Option Nat :=
          if modelLoaded then some cand.dimension else none
        if pyTruthyStr storedName && (storedName.getD "" != cand.name) then
          false
        else if pyTruthyNat storedDim && pyTruthyNat currentDim
            && (storedDim != currentDim) then
          false
        else
          true

/-! ## MD5 and the record identifier

`store_image_data`, `image_exists`, `get_image_data` and the skip path of
`process_image` all compute the record id as
`hashlib.md5(path.encode()).hexdigest()`: the MD5 digest, in lowercase hex,
of the UTF-8 encoding of the path string.  MD5 (RFC 1321) is embedded below
over byte lists, with 32-bit words as `Nat` reduced `% 2^32`. -/

def mask32 : Nat := 4294967295

/-- 32-bit left rotation (operand assumed `< 2^32`). -/
def rotl32 (x n : Nat) : Nat :=
  ((x <<< n) ||| (x >>> (32 - n))) % 4294967296

/-- The 64 MD5 sine-derived constants `K[i] = floor(2^32 * abs(sin(i+1)))`. -/
def md5K : List Nat :=
  [0xd76aa478, 0xe8c7b756, 0x242070db, 0xc1bdceee,
   0xf57c0faf, 0x4787c62a, 0xa8304613, 0xfd469501,
   0x698098d8, 0x8b44f7af, 0xffff5bb1, 0x895cd7be,
   0x6b901122, 0xfd987193, 0xa679438e, 0x49b40821,
   0xf61e2562, 0xc040b340, 0x265e5a51, 0xe9b6c7aa,
   0xd62f105d, 0x02441453, 0xd8a1e681, 0xe7d3fbc8,
   0x21e1cde6, 0xc33707d6, 0xf4d50d87, 0x455a14ed,
   0xa9e3e905, 0xfcefa3f8, 0x676f02d9, 0x8d2a4c8a,
   0xfffa3942, 0x8771f681, 0x6d9d6122, 0xfde5380c,
   0xa4beea44, 0x4bdecfa9, 0xf6bb4b60, 0xbebfbc70,
   0x289b7ec6, 0xeaa127fa, 0xd4ef3085, 0x04881d05,
   0xd9d4d039, 0xe6db99e5, 0x1fa27cf8, 0xc4ac5665,
   0xf4292244, 0x432aff97, 0xab9423a7, 0xfc93a039,
   0x655b59c3, 0x8f0ccc92, 0xffeff47d, 0x85845dd1,
   0x6fa87e4f, 0xfe2ce6e0, 0xa3014314, 0x4e0811a1,
   0xf7537e82, 0xbd3af235, 0x2ad7d2bb, 0xeb86d391]

/-- The MD5 per-round left-rotation amounts. -/
def md5S : List Nat :=
  [7, 12, 17, 22, 7, 12, 17, 22, 7, 12, 17, 22, 7, 12, 17, 22,
   5,  9, 14, 20, 5,  9, 14, 20, 5,  9, 14, 20, 5,  9, 14, 20,
   4, 11, 16, 23, 4, 11, 16, 23, 4, 11, 16, 23, 4, 11, 16, 23,
   6, 10, 15, 21, 6, 10, 15, 21, 6, 10, 15, 21, 6, 10, 15, 21]

/-- One of the 64 MD5 operations on the state `(a, b, c, d)`, over the
16-word message block `M`. -/
def md5Step (M : List Nat) (st : Nat × Nat × Nat × Nat) (i : Nat) :
    Nat × Nat × Nat × Nat :=
  let (a, b, c, d) := st
  let fg : Nat × Nat :=
    if i < 16 then ((b &&& c) ||| ((b ^^^ mask32) &&& d), i)
    else if i < 32 then ((d &&& b) ||| ((d ^^^ mask32) &&& c), (5 * i + 1) % 16)
    else if i < 48 then (b ^^^ c ^^^ d, (3 * i + 5) % 16)
    else (c ^^^ (b ||| (d ^^^ mask32)), (7 * i) % 16)
  let fv := (fg.1 + a + md5K.getD i 0 + M.getD fg.2 0) % 4294967296
  (d, (b + rotl32 fv (md5S.getD i 0)) % 4294967296, b, c)

/-- Process one 512-bit block through the 64 MD5 operations and add the
result into the running state. -/
def md5Block (h : Nat × Nat × Nat × Nat) (M : List Nat) :
    Nat × Nat × Nat × Nat :=
  let (a, b, c, d) := (List.range 64).foldl (md5Step M) h
  ((h.1 + a) % 4294967296, (h.2.1 + b) % 4294967296,
   (h.2.2.1 + c) % 4294967296, (h.2.2.2 + d) % 4294967296)

/-- MD5 padding: a `0x80` byte, zeros to 56 mod 64, then the bit length as
a 64-bit little-endian quantity. -/
def md5Pad (msg : List Nat) : List Nat :=
  let len := msg.length
  let zeros := (56 + 64 - ((len + 1) % 64)) % 64
  let bitLen := (8 * len) % (2 ^ 64)
  msg ++ [128] ++ List.replicate zeros 0
      ++ ((List.range 8).map fun j => (bitLen >>> (8 * j)) % 256)

/-- Little-endian grouping of bytes into 32-bit words. -/
def bytesToWords : List Nat → List Nat
  | b0 :: b1 :: b2 :: b3 :: rest =>
      (b0 + 256 * b1 + 65536 * b2 + 16777216 * b3) :: bytesToWords rest
  | _ => []

/-- Split a byte list into 64-byte chunks (structural recursion on a fuel
bound so that the definition reduces inside the kernel). -/
def chunks64Aux : Nat → List Nat → List (List Nat)
  | 0, _ => []
  | _, [] => []
  | fuel + 1, x :: xs =>
      ((x :: xs).take 64) :: chunks64Aux fuel ((x :: xs).drop 64)

def chunks64 (l : List Nat) : List (List Nat) :=
  chunks64Aux l.length l

/-- Lowercase hexadecimal digit. -/
def hexDigit (n : Nat) : Char :=
  if n < 10 then Char.ofNat (48 + n) else Char.ofNat (87 + n)

def byteToHex (b : Nat) : List Char :=
  [hexDigit (b / 16), hexDigit (b % 16)]

/-- Little-endian bytes of a 32-bit word. -/
def wordLEBytes (w : Nat) : List Nat :=
  [w % 256, (w >>> 8) % 256, (w >>> 16) % 256, (w >>> 24) % 256]

/-- `hashlib.md5(bytes).hexdigest()`: lowercase hex MD5 digest of a byte
list. -/
def md5Hex (msg : List Nat) : String :=
  let h := (chunks64 (md5Pad msg)).foldl
    (fun h blk => md5Block h (bytesToWords blk))
    (0x67452301, 0xefcdab89, 0x98badcfe, 0x10325476)
  String.mk (([h.1, h.2.1, h.2.2.1, h.2.2.2].flatMap wordLEBytes).flatMap byteToHex)

/-- UTF-8 encoding of one character (`str.encode()` per code point). -/
def utf8EncodeChar (c : Char) : List Nat :=
  let n := c.toNat
  if n < 128 then [n]
  else if n < 2048 then [192 + n / 64, 128 + n % 64]
  else if n < 65536 then [224 + n / 4096, 128 + (n / 64) % 64, 128 + n % 64]
  else [240 + n / 262144, 128 + (n / 4096) % 64, 128 + (n / 64) % 64, 128 + n % 64]

/-- Python `path.encode()`: UTF-8 bytes of the string. -/
def utf8Encode (s : String) : List Nat :=
  s.data.flatMap utf8EncodeChar

/-- The id computation of `VectorDatabase.store_image_data` line 91:
`hashlib.md5(image_features['image_path'].encode()).hexdigest()`. -/
def store_image_data_id (image_path : String) : String :=
  md5Hex (utf8Encode image_path)

/-- The id computation of `VectorDatabase.image_exists` line 154:
`hashlib.md5(image_path.encode()).hexdigest()`. -/
def image_exists_id (image_path : String) : String :=
  md5Hex (utf8Encode image_path)

/-- The id computation of the already-processed skip path of
`ImageContextExtractor.process_image` line 89:
`hashlib.md5(image_path.encode()).hexdigest()`. -/
def process_image_skip_id (image_path : String) : String :=
  md5Hex (utf8Encode image_path)

/-! ## Store operations -/

/-- The per-image feature dict produced by
`ImageContextExtractor.extract_image_features` (the fields
`store_image_data` consumes). -/
structure ImageFeatures where
  image_path : String
  caption : String
  filename : String
  width : Nat
  height : Nat
  fmt : String
  objects : List String
  combined_text : String
deriving DecidableEq

/-- `json.dumps` escaping of one character (claim-relevant subset: only
backslash and double quote need escaping for the plain tag strings this
system stores). -/
def jsonEscapeChar (c : Char) : List Char :=
  if c = '\\' then ['\\', '\\']
  else if c = '"' then ['\\', '"']
  else [c]

/-- `json.dumps(list_of_strings)`: bracketed, comma-space separated, each
string double-quoted. -/
def jsonDumpsList (xs : List String) : String :=
  "[" ++ String.intercalate ", "
    (xs.map fun s => "\"" ++ String.mk (s.data.flatMap jsonEscapeChar) ++ "\"")
    ++ "]"

/-- The metadata dict built in `store_image_data` lines 93-100. -/
def buildRecordMetadata (f : ImageFeatures) : RecordMetadata :=
  { image_path := f.image_path
    caption := f.caption
    filename := f.filename
    objects := jsonDumpsList f.objects
    size := toString f.width ++ "x" ++ toString f.height
    fmt := f.fmt }

/-- The full record written by `store_image_data`, with the ghost field
`producedBy` recording which model's embedding function computes the vector
(ChromaDB embeds `combined_text` with the collection handle's embedding
function). -/
def buildRecord (ident : ModelIdentity) (f : ImageFeatures) : StoredRecord :=
  { id := store_image_data_id f.image_path
    document := f.combined_text
    metadata := buildRecordMetadata f
    producedBy := ident }

/-- ChromaDB `collection.add`: insert-only.  An id already present in the
collection is NOT overwritten — the duplicate insert is ignored with a
warning (`Insert of existing embedding ID`); `collection.upsert` would be
the overwriting variant, and the source never calls it. -/
def Collection.add (col : Collection) (r : StoredRecord) : Collection :=
  if col.records.any (fun q => q.id == r.id) then col
  else { col with records := col.records ++ [r] }

/-- `VectorDatabase.store_image_data`: computes the id, builds the metadata
dict, and calls `collection.add`; returns the updated collection and the
id.  `ident` is the identity of the embedding function attached to the
collection handle in use. -/
def store_image_data (col : Collection) (ident : ModelIdentity)
    (f : ImageFeatures) : Collection × String :=
  (col.add (buildRecord ident f), store_image_data_id f.image_path)

/-- `VectorDatabase.image_exists`: `collection.get(ids=[id])` followed by
`len(results['ids']) > 0`. -/
def image_exists (col : Collection) (image_path : String) : Bool :=
  (col.records.filter (fun r => r.id == image_exists_id image_path)).length > 0

/-- `VectorDatabase.get_all_image_data` pagination: with all records
fetched, slice `[offset, offset+limit)` clamped to the total (limit `none`
means no limit). -/
def get_all_image_data (col : Collection) (limit : Option Nat)
    (offset : Nat) : List StoredRecord :=
  let total := col.records.length
  let endIdx := match limit with
    | some l => min (offset + l) total
    | none => total
  (col.records.take endIdx).drop offset

/-! ## Initialization and lifecycle -/

/-- A raised Python exception: the exception class name and message.
`VectorDatabase.__init__` raises a plain `Exception` on an incompatible
model (vector_db.py line 45); no `IncompatibleModelError` class exists in
the source. -/
structure PyError where
  excClass : String
  message : String
deriving DecidableEq

/-- A fresh ChromaDB collection: no metadata keys, no records, metadata
readable. -/
def freshCollection : Collection :=
  { meta := { model_name := none, model_dimension := none }
    records := []
    metadataReadable := true }

/-- `client.get_or_create_collection`: opens the existing collection or
creates a fresh one. -/
def get_or_create_collection (store : Option Collection) : Collection :=
  match store with
  | none => freshCollection
  | some col => col

/-- `VectorDatabase._store_model_metadata`: `collection.modify` writing the
`model_name` / `model_dimension` keys from the embedding function's
identity (dimension force-loaded; nominal semantics — the write
succeeds). -/
def store_model_metadata (col : Collection) (ident : ModelIdentity) :
    Collection :=
  { col with meta :=
      { model_name := some ident.name
        model_dimension := some ident.dimension } }

/-- `VectorDatabase.__init__` with a model config: if the compatibility
check is not skipped and fails, raises `Exception("Model compatibility
check failed: ...")` leaving the store untouched (the check runs BEFORE
`get_or_create_collection`); otherwise opens/creates the collection,
overwrites its identity metadata with the candidate identity, and returns
a handle whose embedding function carries that identity.  Returns the
post-call store state together with the outcome. -/
def initVectorDatabase (store : Option Collection) (cand : ModelIdentity)
    (skip_compatibility_check : Bool) :
    Option Collection × Except PyError ModelIdentity :=
  if !skip_compatibility_check
      && !(check_compatibility store cand).compatible then
    (store, .error
      { excClass := "Exception"
        message := "Model compatibility check failed: "
          ++ (check_compatibility store cand).message })
  else
    (some (store_model_metadata (get_or_create_collection store) cand),
     .ok cand)

/-- `VectorDatabase.clear_database_and_reset` with a model config: deletes
the collection via `DatabaseCompatibilityChecker.clear_collection`
(`client.delete_collection`, which fails — returning `False` — when the
collection does not exist), then recreates a fresh collection with the
current embedding function and stores its identity metadata. -/
def clear_database_and_reset (store : Option Collection)
    (cand : ModelIdentity) : Option Collection × Bool :=
  match store with
  | none => (store, false)
  | some _ => (some (store_model_metadata freshCollection cand), true)

/-! ## Traces of initialize / upsert calls (for the no-mix invariant) -/

/-- One call of the lifecycle: a `VectorDatabase` construction with a given
candidate model identity and skip flag, or a `store_image_data` through the
`h`-th successfully constructed handle. -/
inductive Op where
  | initDb (cand : ModelIdentity) (skip_compatibility_check : Bool)
  | upsert (h : Nat) (f : ImageFeatures)
deriving DecidableEq

/-- System state for a trace: the persistent store and the identities of
the embedding functions of all successfully constructed handles. -/
structure SysState where
  store : Option Collection
  handles : List ModelIdentity
deriving DecidableEq

/-- The empty persistent store, before any collection exists. -/
def SysState.empty : SysState := ⟨none, []⟩

/-- Trace step: a construction that raises leaves the state unchanged and
yields no handle; an upsert through a valid handle adds a record produced
by that handle's model; an upsert through an invalid handle (or before any
collection exists) raises and changes nothing. -/
def stepOp (s : SysState) (op : Op) : SysState :=
  match op with
  | .initDb cand skip =>
      match initVectorDatabase s.store cand skip with
      | (store', .ok h) => ⟨store', s.handles ++ [h]⟩
      | (store', .error _) => ⟨store', s.handles⟩
  | .upsert i f =>
      match s.handles.get? i, s.store with
      | some ident, some col => ⟨some (store_image_data col ident f).1, s.handles⟩
      | _, _ => s

/-- Run a trace from a state. -/
def runTrace (s : SysState) (ops : List Op) : SysState :=
  ops.foldl stepOp s

/-- Does every `initDb` in the trace return successfully (no raise)? -/
def traceInitsSucceed : SysState → List Op → Bool
  | _, [] => true
  | s, op :: rest =>
      (match op with
        | .initDb cand skip =>
            match (initVectorDatabase s.store cand skip).2 with
            | .ok _ => true
            | .error _ => false
        | .upsert _ _ => true)
      && traceInitsSucceed (stepOp s op) rest

/-- The no-mix property of a store: every record's vector was produced by
exactly the model identity recorded in the collection's metadata. -/
def mixFree (store : Option Collection) : Bool :=
  match store with
  | none => true
  | some col =>
      col.records.all fun r =>
        (col.meta.model_name == some r.producedBy.name)
        && (col.meta.model_dimension == some r.producedBy.dimension)

/-- A trace is `good` when every construction in it runs the compatibility
check (`skip_compatibility_check = false`) and configures a model with a
non-empty name (an empty name would be falsy in the checker's
`if stored_model_name and ...` test). -/
def goodOp : Op → Bool
  | .initDb cand skip => !skip && (cand.name != "")
  | .upsert _ _ => true

def goodOps (ops : List Op) : Bool := ops.all goodOp

/-! ## Theorems -/

/-- C10: Idempotent id — the record identifier computed from a path string
(the MD5 hex digest of the UTF-8 path) is the same function at all three
call sites (`store_image_data`, `image_exists`, the skip path of
`process_image`), hence any two invocations on the same path string yield
the same id; and the id returned by `store_image_data` is exactly that
identifier of the record's path. -/
theorem image_id_deterministic :
    (∀ col ident f, (store_image_data col ident f).2
        = store_image_data_id f.image_path)
    ∧ ∀ image_path : String,
        store_image_data_id image_path = image_exists_id image_path
        ∧ image_exists_id image_path = process_image_skip_id image_path :=
  ⟨fun _ _ _ => rfl, fun _ => ⟨rfl, rfl⟩⟩

/-- C2 counterexample: a collection that exists, whose metadata is readable
but carries no `model_name`/`model_dimension` keys, gets
`compatible=false` with reason `dimension_mismatch`, NOT
`unreadable_metadata` (that reason is produced only when reading the
collection raises). -/
theorem check_no_metadata_reason_cex :
    (check_compatibility
        (some { meta := { model_name := none, model_dimension := none }
                records := []
                metadataReadable := true })
        { name := "all-MiniLM-L6-v2", dimension := 384 }).reason
      ≠ Reason.unreadable_metadata
    ∧ (check_compatibility
        (some { meta := { model_name := none, model_dimension := none }
                records := []
                metadataReadable := true })
        { name := "all-MiniLM-L6-v2", dimension := 384 })
      = { compatible := false
          reason := Reason.dimension_mismatch
          message := "Embedding dimension changed: None → 384" } := by
  decide

/-- C2 (amended): for every store in which the named collection exists with
readable metadata carrying no `model_name`/`model_dimension` keys,
`check_compatibility` returns `compatible=false` with reason
`dimension_mismatch`. -/
theorem check_no_metadata_dimension_mismatch (col : Collection)
    (cand : ModelIdentity)
    (hr : col.metadataReadable = true)
    (hn : col.meta.model_name = none)
    (hd : col.meta.model_dimension = none) :
    (check_compatibility (some col) cand).compatible = false
    ∧ (check_compatibility (some col) cand).reason = .dimension_mismatch := by
  simp [check_compatibility, hr, hn, hd, pyTruthyStr, pyTruthyNat]

/-- Witness for the amended C2 theorem at a concrete collection. -/
theorem check_no_metadata_dimension_mismatch_witness :
    (({ meta := { model_name := none, model_dimension := none }
        records := []
        metadataReadable := true } : Collection).metadataReadable = true)
    ∧ ((check_compatibility
          (some { meta := { model_name := none, model_dimension := none }
                  records := []
                  metadataReadable := true })
          { name := "all-MiniLM-L6-v2", dimension := 384 }).compatible = false
       ∧ (check_compatibility
          (some { meta := { model_name := none, model_dimension := none }
                  records := []
                  metadataReadable := true })
          { name := "all-MiniLM-L6-v2", dimension := 384 }).reason
          = .dimension_mismatch) :=
  ⟨rfl, check_no_metadata_dimension_mismatch _ _ rfl rfl rfl⟩

/-- C5: Fail-closed on unknown metadata — for every collection that exists,
contains records, and has no identity metadata keys, the check with a
configured provider returns `compatible=false`, whether or not the
metadata read succeeds. -/
theorem check_fail_closed_no_identity (col : Collection)
    (cand : ModelIdentity)
    (hn : col.meta.model_name = none)
    (hd : col.meta.model_dimension = none)
    (_hrec : col.records ≠ []) :
    (check_compatibility (some col) cand).compatible = false := by
  by_cases hr : col.metadataReadable <;>
    simp [check_compatibility, hr, hn, hd, pyTruthyStr, pyTruthyNat]

/-- Witness for the C5 theorem at a concrete collection holding one
record. -/
theorem check_fail_closed_no_identity_witness :
    (check_compatibility
      (some { meta := { model_name := none, model_dimension := none }
              records := [{ id := "someid"
                            document := "a caption. Objects: cat"
                            metadata := { image_path := "/images/a.png"
                                          caption := "a caption"
                                          filename := "a.png"
                                          objects := "[\"cat\"]"
                                          size := "640x480"
                                          fmt := "PNG" }
                            producedBy := { name := "m", dimension := 3 } }]
              metadataReadable := true })
      { name := "all-MiniLM-L6-v2", dimension := 384 }).compatible = false :=
  check_fail_closed_no_identity _ _ rfl rfl (by decide)

/-- C6: Name-before-dimension tie-break — whenever the stored model name is
present (non-empty) and differs from the candidate's name, the verdict
reason is `model_name_mismatch` (and not `dimension_mismatch`), whatever
the two dimensions are. -/
theorem check_name_before_dimension (col : Collection)
    (cand : ModelIdentity) (s : String)
    (hr : col.metadataReadable = true)
    (hn : col.meta.model_name = some s)
    (hne : s ≠ "")
    (hdiff : s ≠ cand.name) :
    (check_compatibility (some col) cand).reason = .model_name_mismatch
    ∧ (check_compatibility (some col) cand).reason ≠ .dimension_mismatch
    ∧ (check_compatibility (some col) cand).compatible = false := by
  simp [check_compatibility, hr, hn, pyTruthyStr, hne, hdiff]

/-- Witness for the C6 theorem on the spec's own instance: stored identity
`{name: "A", dim: 384}` against candidate `{name: "B", dim: 512}`. -/
theorem check_name_before_dimension_witness :
    ("A" : String) ≠ "" ∧ ("A" : String) ≠ "B"
    ∧ ((check_compatibility
          (some { meta := { model_name := some "A", model_dimension := some 384 }
                  records := []
                  metadataReadable := true })
          { name := "B", dimension := 512 }).reason = .model_name_mismatch
       ∧ (check_compatibility
          (some { meta := { model_name := some "A", model_dimension := some 384 }
                  records := []
                  metadataReadable := true })
          { name := "B", dimension := 512 }).reason ≠ .dimension_mismatch
       ∧ (check_compatibility
          (some { meta := { model_name := some "A", model_dimension := some 384 }
                  records := []
                  metadataReadable := true })
          { name := "B", dimension := 512 }).compatible = false) :=
  ⟨by decide, by decide,
    check_name_before_dimension _ _ "A" rfl rfl (by decide) (by decide)⟩

/-- C7: dimension rule — with readable metadata, an absent-or-equal stored
model name, and a (necessarily positive) candidate dimension, the check
returns `compatible=false` with reason `dimension_mismatch` exactly when
the stored dimension is missing or differs from the candidate's, and
`compatible=true` with reason `compatible` when they agree. -/
theorem check_dimension_rule (col : Collection) (cand : ModelIdentity)
    (hr : col.metadataReadable = true)
    (hname : col.meta.model_name = none
      ∨ col.meta.model_name = some cand.name)
    (hcd : 0 < cand.dimension) :
    (col.meta.model_dimension = some cand.dimension →
      (check_compatibility (some col) cand).compatible = true
      ∧ (check_compatibility (some col) cand).reason = .compatible)
    ∧ (col.meta.model_dimension ≠ some cand.dimension →
      (check_compatibility (some col) cand).compatible = false
      ∧ (check_compatibility (some col) cand).reason = .dimension_mismatch) := by
  have hcd' : cand.dimension ≠ 0 := Nat.pos_iff_ne_zero.mp hcd
  rcases hname with hname | hname <;>
    constructor <;> intro hdim <;>
      simp [check_compatibility, hr, hname, hdim, pyTruthyStr, pyTruthyNat, hcd']

/-- Witness for the C7 theorem: stored `{name: "m", dim: 384}` against
candidate `{name: "m", dim: 384}` is compatible, and the same store against
candidate `{name: "m", dim: 512}` is a dimension mismatch. -/
theorem check_dimension_rule_witness :
    (0 < 384
     ∧ ((check_compatibility
          (some { meta := { model_name := some "m", model_dimension := some 384 }
                  records := []
                  metadataReadable := true })
          { name := "m", dimension := 384 }).compatible = true
        ∧ (check_compatibility
          (some { meta := { model_name := some "m", model_dimension := some 384 }
                  records := []
                  metadataReadable := true })
          { name := "m", dimension := 384 }).reason = .compatible))
    ∧ (0 < 512
       ∧ ((check_compatibility
            (some { meta := { model_name := some "m", model_dimension := some 384 }
                    records := []
                    metadataReadable := true })
            { name := "m", dimension := 512 }).compatible = false
          ∧ (check_compatibility
            (some { meta := { model_name := some "m", model_dimension := some 384 }
                    records := []
                    metadataReadable := true })
            { name := "m", dimension := 512 }).reason = .dimension_mismatch)) :=
  ⟨⟨by decide,
    (check_dimension_rule _ _ rfl (Or.inr rfl) (by decide)).1 rfl⟩,
   ⟨by decide,
    (check_dimension_rule _ _ rfl (Or.inr rfl) (by decide)).2 (by decide)⟩⟩

/-- C9 counterexample: on a store whose collection records a `model_name`
but no `model_dimension`, with a loaded provider of the same name, the two
compatibility implementations disagree —
`VectorDatabase.check_model_compatibility` reports compatible while
`DatabaseCompatibilityChecker.check_compatibility` fails closed. -/
theorem compat_checks_disagree_cex :
    check_model_compatibility
      (some { meta := { model_name := some "modelX", model_dimension := none }
              records := []
              metadataReadable := true })
      { name := "modelX", dimension := 384 } true = true
    ∧ (check_compatibility
        (some { meta := { model_name := some "modelX", model_dimension := none }
                records := []
                metadataReadable := true })
        { name := "modelX", dimension := 384 }).compatible = false := by
  decide

/-- C9 (amended): the two compatibility implementations agree on the
`compatible` Boolean whenever the provider's model is loaded (so its
dimension is reported), the candidate dimension is nonzero, and any
existing collection's stored dimension is present and nonzero; they can
diverge only in the missing/zero-dimension cases, where the standalone
checker fails closed and `check_model_compatibility` skips the dimension
test. -/
theorem compat_checks_agree (store : Option Collection)
    (cand : ModelIdentity)
    (hd : ∀ col, store = some col →
      pyTruthyNat col.meta.model_dimension = true)
    (hc : 0 < cand.dimension) :
    check_model_compatibility store cand true
      = (check_compatibility store cand).compatible := by
  have hc' : cand.dimension ≠ 0 := Nat.pos_iff_ne_zero.mp hc
  match store with
  | none => rfl
  | some col =>
    have hdim := hd col rfl
    by_cases hr : col.metadataReadable
    · rcases hsd : col.meta.model_dimension with _ | d
      · rw [hsd] at hdim; simp [pyTruthyNat] at hdim
      · rw [hsd] at hdim
        simp only [pyTruthyNat] at hdim
        by_cases hnm : pyTruthyStr col.meta.model_name
            && (col.meta.model_name.getD "" != cand.name)
        · simp [check_model_compatibility, check_compatibility, hr, hnm]
        · simp only [check_model_compatibility, check_compatibility, hr, hnm,
            hsd, pyTruthyNat, hdim, hc']
          by_cases hde : d = cand.dimension <;>
            simp [check_model_compatibility, check_compatibility, hr, hnm,
              hsd, pyTruthyNat, hdim, hc', hde]
    · simp [check_model_compatibility, check_compatibility, hr]

/-- Witness for the amended C9 theorem at a concrete store with a recorded
nonzero dimension. -/
theorem compat_checks_agree_witness :
    (0 < 384)
    ∧ check_model_compatibility
        (some { meta := { model_name := some "modelX", model_dimension := some 384 }
                records := []
                metadataReadable := true })
        { name := "modelX", dimension := 384 } true
      = (check_compatibility
          (some { meta := { model_name := some "modelX", model_dimension := some 384 }
                  records := []
                  metadataReadable := true })
          { name := "modelX", dimension := 384 }).compatible :=
  ⟨by decide,
   compat_checks_agree _ _ (by intro col h; cases h; decide) (by decide)⟩

/-- C4 counterexample: on an incompatible store the constructor raises a
plain `Exception` (message "Model compatibility check failed: ..."), not a
typed `IncompatibleModelError` — no such class exists in the source. -/
theorem init_raises_untyped_exception_cex :
    (initVectorDatabase
        (some { meta := { model_name := some "modelX", model_dimension := some 384 }
                records := []
                metadataReadable := true })
        { name := "modelY", dimension := 768 } false).2
      = Except.error
          { excClass := "Exception"
            message := "Model compatibility check failed: Model changed: modelX → modelY" }
    ∧ ∀ e, (initVectorDatabase
        (some { meta := { model_name := some "modelX", model_dimension := some 384 }
                records := []
                metadataReadable := true })
        { name := "modelY", dimension := 768 } false).2 = Except.error e →
        e.excClass ≠ "IncompatibleModelError" := by
  constructor
  · rfl
  · intro e he
    have h2 : (Except.error e : Except PyError ModelIdentity) = Except.error
        { excClass := "Exception"
          message := "Model compatibility check failed: Model changed: modelX → modelY" } :=
      he.symm.trans rfl
    injection h2 with h3
    subst h3
    decide

/-- C4 (amended): with a model config and `skip_check=false`, an
incompatible verdict makes the constructor fail with a raised (but
untyped) `Exception` carrying the checker's message, and the store is left
unchanged — no collection is created or opened and no identity metadata is
written. -/
theorem init_incompatible_raises_state_unchanged
    (store : Option Collection) (cand : ModelIdentity)
    (hic : (check_compatibility store cand).compatible = false) :
    initVectorDatabase store cand false
      = (store, Except.error
          { excClass := "Exception"
            message := "Model compatibility check failed: "
              ++ (check_compatibility store cand).message }) := by
  simp [initVectorDatabase, hic]

/-- Witness for the amended C4 theorem on the spec's scenario: stored
`{"modelX", 384}` against configured `{"modelY", 768}`. -/
theorem init_incompatible_raises_state_unchanged_witness :
    (check_compatibility
        (some { meta := { model_name := some "modelX", model_dimension := some 384 }
                records := []
                metadataReadable := true })
        { name := "modelY", dimension := 768 }).compatible = false
    ∧ initVectorDatabase
        (some { meta := { model_name := some "modelX", model_dimension := some 384 }
                records := []
                metadataReadable := true })
        { name := "modelY", dimension := 768 } false
      = (some { meta := { model_name := some "modelX", model_dimension := some 384 }
                records := []
                metadataReadable := true },
         Except.error
          { excClass := "Exception"
            message := "Model compatibility check failed: "
              ++ (check_compatibility
                    (some { meta := { model_name := some "modelX", model_dimension := some 384 }
                            records := []
                            metadataReadable := true })
                    { name := "modelY", dimension := 768 }).message }) :=
  ⟨by decide, init_incompatible_raises_state_unchanged _ _ (by decide)⟩

/-- C8: Rebuild clears everything — after a successful
`clear_database_and_reset` the store holds a fresh collection carrying the
current model's identity, listing all records yields the empty sequence,
and a subsequent check with the same provider returns `compatible=true`
(the provider's dimension being the positive vector length reported by
`get_dimension`). -/
theorem clear_and_rebuild_resets (store : Option Collection)
    (cand : ModelIdentity)
    (hs : (clear_database_and_reset store cand).2 = true)
    (hd : 0 < cand.dimension) :
    (clear_database_and_reset store cand).1
      = some (store_model_metadata freshCollection cand)
    ∧ get_all_image_data (store_model_metadata freshCollection cand) none 0 = []
    ∧ (check_compatibility (clear_database_and_reset store cand).1
        cand).compatible = true := by
  have hd' : cand.dimension ≠ 0 := Nat.pos_iff_ne_zero.mp hd
  match store with
  | none => simp [clear_database_and_reset] at hs
  | some col =>
    refine ⟨rfl, rfl, ?_⟩
    simp [clear_database_and_reset, check_compatibility,
      store_model_metadata, freshCollection, pyTruthyStr, pyTruthyNat, hd']

/-- Witness for the C8 theorem: rebuilding a store that held a different
model's data. -/
theorem clear_and_rebuild_resets_witness :
    (clear_database_and_reset
        (some { meta := { model_name := some "modelX", model_dimension := some 384 }
                records := []
                metadataReadable := true })
        { name := "modelY", dimension := 768 }).2 = true
    ∧ (0 < 768)
    ∧ ((clear_database_and_reset
          (some { meta := { model_name := some "modelX", model_dimension := some 384 }
                  records := []
                  metadataReadable := true })
          { name := "modelY", dimension := 768 }).1
        = some (store_model_metadata freshCollection
            { name := "modelY", dimension := 768 })
       ∧ get_all_image_data
          (store_model_metadata freshCollection
            { name := "modelY", dimension := 768 }) none 0 = []
       ∧ (check_compatibility
            (clear_database_and_reset
              (some { meta := { model_name := some "modelX", model_dimension := some 384 }
                      records := []
                      metadataReadable := true })
              { name := "modelY", dimension := 768 }).1
            { name := "modelY", dimension := 768 }).compatible = true) :=
  ⟨by decide, by decide,
   clear_and_rebuild_resets _ _ (by decide) (by decide)⟩

/-- Sample extraction results used as concrete inputs. -/
def sampleFeaturesOld : ImageFeatures :=
  { image_path := "/images/a.png"
    caption := "an old caption"
    filename := "a.png"
    width := 640
    height := 480
    fmt := "PNG"
    objects := ["cat"]
    combined_text := "an old caption. Objects: cat" }

def sampleFeaturesNew : ImageFeatures :=
  { image_path := "/images/a.png"
    caption := "a new caption"
    filename := "a.png"
    width := 640
    height := 480
    fmt := "PNG"
    objects := ["dog"]
    combined_text := "a new caption. Objects: dog" }

def sampleFeaturesB : ImageFeatures :=
  { image_path := "/images/b.png"
    caption := "another caption"
    filename := "b.png"
    width := 800
    height := 600
    fmt := "JPEG"
    objects := ["tree"]
    combined_text := "another caption. Objects: tree" }

/-- C3 code behavior at the failing input: `store_image_data` calls
ChromaDB's insert-only `collection.add`, so re-storing the same path (same
id) leaves the collection exactly as it was — the old record's contents
survive and the newly supplied caption/document is discarded, while the
call still returns the id as if it had written. -/
theorem store_image_data_does_not_overwrite :
    ((store_image_data
        (store_image_data freshCollection
          { name := "all-MiniLM-L6-v2", dimension := 384 } sampleFeaturesOld).1
        { name := "all-MiniLM-L6-v2", dimension := 384 } sampleFeaturesNew).1
      = (store_image_data freshCollection
          { name := "all-MiniLM-L6-v2", dimension := 384 } sampleFeaturesOld).1)
    ∧ ((store_image_data
        (store_image_data freshCollection
          { name := "all-MiniLM-L6-v2", dimension := 384 } sampleFeaturesOld).1
        { name := "all-MiniLM-L6-v2", dimension := 384 } sampleFeaturesNew).1.records.map
          (fun r => r.document)
      = ["an old caption. Objects: cat"])
    ∧ sampleFeaturesNew.combined_text ≠ "an old caption. Objects: cat" := by
  refine ⟨by decide, by decide, by decide⟩

/-! ### The no-mix invariant (C1) -/

theorem Collection.add_meta (col : Collection) (r : StoredRecord) :
    (col.add r).meta = col.meta := by
  unfold Collection.add; split <;> rfl

theorem Collection.add_readable (col : Collection) (r : StoredRecord) :
    (col.add r).metadataReadable = col.metadataReadable := by
  unfold Collection.add; split <;> rfl

theorem Collection.add_producedBy (col : Collection) (r : StoredRecord)
    (ident : ModelIdentity)
    (hall : ∀ q ∈ col.records, q.producedBy = ident)
    (hr : r.producedBy = ident) :
    ∀ q ∈ (col.add r).records, q.producedBy = ident := by
  unfold Collection.add; split
  · exact hall
  · intro q hq
    rcases List.mem_append.mp hq with hq | hq
    · exact hall q hq
    · rw [List.mem_singleton.mp hq]; exact hr

/-- Inductive invariant of good traces: either nothing exists yet, or one
model identity (with a non-empty name) governs the collection metadata,
every successfully constructed handle, and every stored record. -/
def InvState (s : SysState) : Prop :=
  (s.store = none ∧ s.handles = []) ∨
  ∃ ident col, s.store = some col
    ∧ ident.name ≠ ""
    ∧ col.metadataReadable = true
    ∧ col.meta.model_name = some ident.name
    ∧ col.meta.model_dimension = some ident.dimension
    ∧ (∀ h ∈ s.handles, h = ident)
    ∧ (∀ r ∈ col.records, r.producedBy = ident)

/-- A compatibility check that passes against a collection recording the
(nonempty-named) identity `ident` forces the candidate to be exactly
`ident`. -/
theorem check_some_compatible_eq (col : Collection)
    (cand ident : ModelIdentity)
    (hr : col.metadataReadable = true)
    (hin : ident.name ≠ "")
    (hmn : col.meta.model_name = some ident.name)
    (hmd : col.meta.model_dimension = some ident.dimension)
    (hc : (check_compatibility (some col) cand).compatible = true) :
    cand = ident := by
  by_cases h1 : ident.name = cand.name
  · by_cases h2 : ident.dimension = cand.dimension
    · cases cand; cases ident; simp_all
    · exfalso
      simp [check_compatibility, hr, hmn, hmd, pyTruthyStr, pyTruthyNat,
        hin, h1, h2] at hc
  · exfalso
    simp [check_compatibility, hr, hmn, hmd, pyTruthyStr, pyTruthyNat,
      hin, h1] at hc

theorem stepOp_initDb_compatible (s : SysState) (cand : ModelIdentity)
    (hc : (check_compatibility s.store cand).compatible = true) :
    stepOp s (.initDb cand false)
      = ⟨some (store_model_metadata (get_or_create_collection s.store) cand),
         s.handles ++ [cand]⟩ := by
  simp [stepOp, initVectorDatabase, hc]

theorem stepOp_initDb_incompatible (s : SysState) (cand : ModelIdentity)
    (hc : (check_compatibility s.store cand).compatible = false) :
    stepOp s (.initDb cand false) = s := by
  simp [stepOp, initVectorDatabase, hc]

/-- One good step preserves the invariant. -/
theorem stepOp_preserves_inv (s : SysState) (op : Op)
    (hg : goodOp op = true) (hI : InvState s) : InvState (stepOp s op) := by
  cases op with
  | initDb cand skip =>
      obtain ⟨hskip, hname⟩ : skip = false ∧ cand.name ≠ "" := by
        simpa [goodOp] using hg
      subst hskip
      by_cases hc : (check_compatibility s.store cand).compatible
      · rw [stepOp_initDb_compatible s cand hc]
        rcases hI with ⟨hs, hh⟩ | ⟨ident, col, hs, hin, hr, hmn, hmd, hhs, hrec⟩
        · rw [hs, hh]
          refine Or.inr ⟨cand, _, rfl, hname, rfl, rfl, rfl, ?_, ?_⟩
          · intro h hm
            simpa using hm
          · intro r hm
            simp [get_or_create_collection, store_model_metadata,
              freshCollection] at hm
        · rw [hs] at hc
          have heq : cand = ident :=
            check_some_compatible_eq col cand ident hr hin hmn hmd hc
          rw [hs]
          refine Or.inr ⟨ident, store_model_metadata col cand, rfl, hin,
            hr, ?_, ?_, ?_, ?_⟩
          · simp [store_model_metadata, heq]
          · simp [store_model_metadata, heq]
          · intro h hm
            rcases List.mem_append.mp hm with hm | hm
            · exact hhs h hm
            · rw [List.mem_singleton.mp hm]; exact heq
          · intro r hm
            exact hrec r hm
      · have hc' : (check_compatibility s.store cand).compatible = false := by
          simpa using hc
        rw [stepOp_initDb_incompatible s cand hc']
        exact hI
  | upsert i f =>
      rcases hI with ⟨hs, hh⟩ | ⟨ident, col, hs, hin, hr, hmn, hmd, hhs, hrec⟩
      · have hgi : s.handles.get? i = none := by rw [hh]; rfl
        simp only [stepOp, hgi]
        exact Or.inl ⟨hs, hh⟩
      · cases hgi : s.handles.get? i with
        | none =>
            simp only [stepOp, hgi]
            exact Or.inr ⟨ident, col, hs, hin, hr, hmn, hmd, hhs, hrec⟩
        | some hdl =>
            have hhd : hdl = ident := hhs hdl (List.get?_mem hgi)
            subst hhd
            simp only [stepOp, hgi, hs]
            refine Or.inr ⟨hdl, (store_image_data col hdl f).1, rfl, hin,
              ?_, ?_, ?_, hhs, ?_⟩
            · rw [show (store_image_data col hdl f).1
                  = col.add (buildRecord hdl f) from rfl,
                Collection.add_readable]
              exact hr
            · rw [show (store_image_data col hdl f).1
                  = col.add (buildRecord hdl f) from rfl,
                Collection.add_meta]
              exact hmn
            · rw [show (store_image_data col hdl f).1
                  = col.add (buildRecord hdl f) from rfl,
                Collection.add_meta]
              exact hmd
            · exact Collection.add_producedBy col (buildRecord hdl f) hdl
                hrec rfl

/-- A good trace preserves the invariant. -/
theorem runTrace_preserves_inv (ops : List Op) (s : SysState)
    (hg : goodOps ops = true) (hI : InvState s) :
    InvState (runTrace s ops) := by
  induction ops generalizing s with
  | nil => exact hI
  | cons op rest ih =>
      rw [goodOps, List.all_cons, Bool.and_eq_true] at hg
      exact ih (stepOp s op) hg.2 (stepOp_preserves_inv s op hg.1 hI)

/-- A state satisfying the invariant has a mix-free store. -/
theorem mixFree_of_inv (s : SysState) (hI : InvState s) :
    mixFree s.store = true := by
  rcases hI with ⟨hs, _⟩ | ⟨ident, col, hs, _, _, hmn, hmd, _, hrec⟩
  · rw [hs]; rfl
  · rw [hs]
    simp only [mixFree, List.all_eq_true]
    intro r hrm
    rw [hmn, hmd, hrec r hrm]
    simp

/-- C1 (amended): starting from an empty store, for every sequence of
`VectorDatabase` constructions with `skip_compatibility_check=false` and a
non-empty configured model name, together with `store_image_data` calls
through any successfully obtained handles, every vector in the collection
was produced by exactly the `model_name`+`dimension` pair recorded in the
collection's identity metadata. -/
theorem no_mix_invariant (ops : List Op) (hg : goodOps ops = true) :
    mixFree (runTrace SysState.empty ops).store = true :=
  mixFree_of_inv _
    (runTrace_preserves_inv ops SysState.empty hg (Or.inl ⟨rfl, rfl⟩))

/-- Witness for the amended C1 theorem on a concrete good trace. -/
theorem no_mix_invariant_witness :
    goodOps [Op.initDb { name := "modelX", dimension := 384 } false,
             Op.upsert 0 sampleFeaturesOld] = true
    ∧ mixFree (runTrace SysState.empty
        [Op.initDb { name := "modelX", dimension := 384 } false,
         Op.upsert 0 sampleFeaturesOld]).store = true :=
  ⟨by decide, no_mix_invariant _ (by decide)⟩

/-- A trace on which every construction returns successfully but the
second one uses `skip_compatibility_check=true` with a different model. -/
def mixTrace : List Op :=
  [Op.initDb { name := "modelX", dimension := 384 } false,
   Op.upsert 0 sampleFeaturesOld,
   Op.initDb { name := "modelY", dimension := 768 } true,
   Op.upsert 1 sampleFeaturesB]

/-- C1 counterexample: on `mixTrace` every `VectorDatabase` construction
returns successfully and `clear_database_and_reset` never runs, yet the
final collection mixes a vector produced by `{"modelX", 384}` with one
produced by `{"modelY", 768}` under metadata recording `{"modelY", 768}` —
the claim's property fails because the constructor's
`skip_compatibility_check=true` path (used by degraded/lazy callers) still
overwrites the identity metadata and accepts writes. -/
theorem no_mix_claim_cex :
    traceInitsSucceed SysState.empty mixTrace = true
    ∧ mixFree (runTrace SysState.empty mixTrace).store = false := by
  exact ⟨by decide, by decide⟩

end ImageContextVectorization
